import Mathlib

/-!
Verification of the taskex task-runner core and its MCP dispatch layer.

The data model (Token, TaskRun, Runner) and the runner-core operations
(token allocation, submit, status lookup, cancel, the status state machine,
timeout handling, executor outcome mapping, timeout-string parsing) are not
shipped in the repository snapshot; they are modelled from the specification,
each such definition carrying a doc comment starting `Modelled from the spec:`.
The dispatch functions (`get_command_status`, `get_command_output`,
`cancel_command`, `build`) are translated from the example servers in
`src/examples/mcp_server_example/server.py` and
`src/examples/mcp_docker_server_example/server.py`.
-/

/-- Modelled from the spec: task status enum with states
Queued → Running → \x7bCompleted, Failed, Cancelled\x7d. -/
inductive Status
  | Queued
  | Running
  | Completed
  | Failed
  | Cancelled
deriving DecidableEq

/-- Modelled from the spec: the three outcome states are terminal. -/
def isTerminal : Status → Bool
  | Status.Completed => true
  | Status.Failed => true
  | Status.Cancelled => true
  | _ => false

/-- Modelled from the spec and docstrings: the string `status.value`
returned by `get_command_status` ("RUNNING" is the one value attested in the
example docstrings). -/
def statusValue : Status → String
  | Status.Queued => "QUEUED"
  | Status.Running => "RUNNING"
  | Status.Completed => "COMPLETED"
  | Status.Failed => "FAILED"
  | Status.Cancelled => "CANCELLED"

/-- Modelled from the spec: a Token combines a human-readable alias
(`task_name`, as in `run.task_name` in the examples) with a
uniqueness-guaranteeing suffix `run_id` drawn from an atomic counter. -/
structure Token where
  task_name : String
  run_id : Nat
deriving DecidableEq

/-- The combined string form of a token, as in `test:1234567890`. -/
def Token.asText (t : Token) : String :=
  t.task_name ++ ":" ++ toString t.run_id

/-- Modelled from the spec: the Task Record, the mutable state container for
one submission (status, result, error, cancellation-requested flag, parsed
timeout). This is also the shape of the `response` object the dispatch layer
reads (`response.status`, `response.result`, `response.error`,
`response.complete()`). -/
structure TaskRun where
  token : Token
  status : Status
  result : String
  error : Option String
  cancel_requested : Bool
  timeout : Option Nat
deriving DecidableEq

/-- Modelled from the spec: `response.complete()` is not in the repository
snapshot; the spec's output contract branches on status ≠ Completed and
≠ Failed (sentinel), status Failed (error text) and status Completed (result),
so `complete` holds exactly on Completed and Failed. -/
def TaskRun.complete (rec : TaskRun) : Bool :=
  match rec.status with
  | Status.Completed => true
  | Status.Failed => true
  | _ => false

/-- The Python truthiness test `response.error and len(response.error) > 0`
from `get_command_output`. -/
def errorNonEmpty (rec : TaskRun) : Bool :=
  match rec.error with
  | none => false
  | some e => !e.isEmpty

/-- A JSON rendering of the option-valued error field. -/
def optJson : Option String → String
  | none => "null"
  | some s => "\"" ++ s ++ "\""

/-- The structured encoding `response.model_dump_json()` of the full record
returned on the `as_json` path of `get_command_output`. -/
def TaskRun.model_dump_json (rec : TaskRun) : String :=
  "\x7b\"token\": \"" ++ rec.token.asText ++ "\", \"status\": \"" ++
    statusValue rec.status ++ "\", \"result\": \"" ++ rec.result ++
    "\", \"error\": " ++ optJson rec.error ++ "\x7d"

/-- `get_command_output` from the example servers, as a function of the task
record it fetched and the `as_json` flag:
if `as_json and response.complete()` return the JSON dump; else if the error
field is non-empty return it; else if complete return the result; else return
the still-running sentinel. -/
def get_command_output (rec : TaskRun) (as_json : Bool) : String :=
  if as_json && rec.complete then rec.model_dump_json
  else if errorNonEmpty rec then rec.error.getD ""
  else if rec.complete then rec.result
  else "Command is still running."

/-- Modelled from the spec: the error text recorded when a timeout forcibly
cancels a task. -/
def timeoutErrorText : String := "timeout exceeded"

/-- Modelled from the spec: the exit diagnostic used when a process fails with
empty stderr. -/
def exitDiagnostic (code : Nat) : String :=
  "process exited with code " ++ toString code

/-- Modelled from the spec: the events an executor or the runner can deliver
to one task record — promotion to Running, executor completion (success or
captured failure), a cancellation request, cancellation acknowledgement, and
watchdog timeout expiry. -/
inductive TaskEvent
  | start
  | completeOk (res : String)
  | completeErr (msg : String)
  | cancelRequest
  | cancelAck
  | timeoutExpire
deriving DecidableEq

/-- Modelled from the spec: the status state machine of one task record.
Queued promotes to Running when an executor starts; completion events apply
to a Running task; a cancel request while Queued goes directly to Cancelled,
while Running it only sets the cancellation-requested flag until the executor
acknowledges; cancel on an already-terminal record is a no-op; the timeout
watchdog forces Cancelled with a timeout error on any non-terminal record. -/
def applyEvent : TaskEvent → TaskRun → TaskRun
  | TaskEvent.start, rec =>
      if rec.status = Status.Queued then { rec with status := Status.Running } else rec
  | TaskEvent.completeOk res, rec =>
      if rec.status = Status.Running then
        { rec with status := Status.Completed, result := res }
      else rec
  | TaskEvent.completeErr msg, rec =>
      if rec.status = Status.Running then
        { rec with status := Status.Failed, error := some msg }
      else rec
  | TaskEvent.cancelRequest, rec =>
      match rec.status with
      | Status.Queued =>
          { rec with status := Status.Cancelled, cancel_requested := true }
      | Status.Running => { rec with cancel_requested := true }
      | _ => rec
  | TaskEvent.cancelAck, rec =>
      if rec.status = Status.Running && rec.cancel_requested then
        { rec with status := Status.Cancelled }
      else rec
  | TaskEvent.timeoutExpire, rec =>
      if isTerminal rec.status then rec
      else { rec with status := Status.Cancelled, error := some timeoutErrorText }

/-- Modelled from the spec: the API-visible outcome of an explicit cancel that
runs to acknowledgement. -/
def explicitCancel (rec : TaskRun) : TaskRun :=
  applyEvent TaskEvent.cancelAck (applyEvent TaskEvent.cancelRequest rec)

/-- Modelled from the spec: the process executor maps the exit of the external
process to a terminal event — exit code zero becomes Completed with the
captured stdout as result, a non-zero exit code becomes Failed with the
captured stderr (or an exit diagnostic when stderr is empty) as error. -/
def processEvent (exitCode : Nat) (out err : String) : TaskEvent :=
  if exitCode = 0 then TaskEvent.completeOk out
  else TaskEvent.completeErr (if err.isEmpty then exitDiagnostic exitCode else err)

/-- Modelled from the spec: the record a process task ends in, given the exit
code and captured streams of its external process. -/
def processOutcome (rec : TaskRun) (exitCode : Nat) (out err : String) : TaskRun :=
  applyEvent (processEvent exitCode out err) rec

/-- Modelled from the spec: the external process `echo hello` run with shell
interpretation exits with code 0, stdout `"hello\n"` and empty stderr. -/
def echoHelloExitCode : Nat := 0

/-- Modelled from the spec: stdout of `echo hello`. -/
def echoHelloStdout : String := "hello\n"

/-- Modelled from the spec: stderr of `echo hello`. -/
def echoHelloStderr : String := ""

/-- The error taxonomy: `UnknownToken` and `SubmissionError` are modelled from
the spec; `PyValueError` and `PyTypeError` embed the Python exceptions the
`build` tool's build-arg loop raises (`ValueError` from unpacking
`arg.split("=", maxsplit=1)` with no `=`, `TypeError` from assigning into the
never-initialised `image_build_args`, which is still `None`). -/
inductive TaskexError
  | UnknownToken
  | SubmissionError
  | PyValueError
  | PyTypeError
deriving DecidableEq

/-- Modelled from the spec: the Runner owns an atomic counter for run ids and
the token→record table. -/
structure Runner where
  counter : Nat
  table : List TaskRun
deriving DecidableEq

/-- The freshly constructed runner. -/
def initRunner : Runner := ⟨0, []⟩

/-- Token lookup in the table. -/
def findRecord (table : List TaskRun) (t : Token) : Option TaskRun :=
  table.find? (fun rec => rec.token = t)

/-- Apply an update to every record carrying the given token. -/
def updateRecord (table : List TaskRun) (t : Token) (f : TaskRun → TaskRun) :
    List TaskRun :=
  table.map (fun rec => if rec.token = t then f rec else rec)

/-- Modelled from the spec: `submit` allocates a token from the alias and the
current counter value, registers a Queued record (with the already-parsed
timeout, if any) and increments the counter. -/
def Runner.submit (r : Runner) (a : String) (tmo : Option Nat) :
    Token × Runner :=
  (⟨a, r.counter⟩,
   ⟨r.counter + 1,
    r.table ++ [{ token := ⟨a, r.counter⟩, status := Status.Queued, result := "",
                  error := none, cancel_requested := false, timeout := tmo }]⟩)

/-- Modelled from the spec: `status`/`get_task_update` is a pure lookup that
fails with `UnknownToken` if the token was never issued or has been evicted. -/
def get_task_update (r : Runner) (t : Token) : Except TaskexError TaskRun :=
  match findRecord r.table t with
  | none => Except.error TaskexError.UnknownToken
  | some rec => Except.ok rec

/-- Modelled from the spec: `cancel` fails with `UnknownToken` on an invalid
token and otherwise delivers a cancellation request to the task's record
(a no-op when the record is already terminal). -/
def Runner.cancel (r : Runner) (t : Token) : Except TaskexError Runner :=
  match findRecord r.table t with
  | none => Except.error TaskexError.UnknownToken
  | some _ =>
      Except.ok { r with
        table := updateRecord r.table t (applyEvent TaskEvent.cancelRequest) }

/-- Modelled from the spec: records are retained in the table until explicit
eviction; evicting a token removes its record from the table (the counter is
untouched, so the token is never minted again). -/
def Runner.evict (r : Runner) (t : Token) : Runner :=
  { r with table := r.table.filter (fun rec => rec.token ≠ t) }

/-- `get_command_status` from the example servers: fetch the task update and
return `response.status.value`; there is no try/except around the fetch, so a
lookup failure propagates out of the tool function. -/
def get_command_status (r : Runner) (t : Token) : Except TaskexError String :=
  match get_task_update r t with
  | Except.error e => Except.error e
  | Except.ok rec => Except.ok (statusValue rec.status)

/-- The success message of `cancel_command`. -/
def cancelOkText (t : Token) : String :=
  "Command " ++ t.asText ++ " cancelled successfully"

/-- The rendering of a runner error inside the `cancel_command` failure
message. -/
def errText : TaskexError → String
  | TaskexError.UnknownToken => "UnknownToken"
  | TaskexError.SubmissionError => "SubmissionError"
  | TaskexError.PyValueError => "ValueError"
  | TaskexError.PyTypeError => "TypeError"

/-- The failure message of `cancel_command`. -/
def cancelFailText (t : Token) (e : TaskexError) : String :=
  "Failed to cancel command " ++ t.asText ++ ": " ++ errText e

/-- `cancel_command` from the example servers: it wraps `runner.cancel` in
try/except and always returns a user-visible message string, together with the
runner state it leaves behind. -/
def cancel_command (r : Runner) (t : Token) : String × Runner :=
  match r.cancel t with
  | Except.ok r' => (cancelOkText t, r')
  | Except.error e => (cancelFailText t e, r)

/-- Whether a dispatch call produced a value rather than letting an exception
propagate. -/
def exceptIsOk (x : Except TaskexError String) : Bool :=
  match x with
  | Except.ok _ => true
  | Except.error _ => false

/-- Modelled from the spec: timeout durations are strings of digits followed
by a shorthand unit (s seconds, m minutes, h hours); parsing fails fast on
malformed input rather than silently defaulting. Returns the duration in
seconds. -/
def parseTimeout (s : String) : Option Nat :=
  let digits := s.data.takeWhile Char.isDigit
  let unit := s.data.dropWhile Char.isDigit
  if digits.isEmpty then none
  else
    let n := digits.foldl (fun acc c => acc * 10 + (c.toNat - 48)) 0
    if unit = ['s'] then some n
    else if unit = ['m'] then some (n * 60)
    else if unit = ['h'] then some (n * 3600)
    else none

/-- Modelled from the spec: submission with an optional timeout string parses
the timeout first and fails with `SubmissionError` (creating no task record)
when it is malformed; a missing timeout means no timeout, never a default. -/
def submitWithTimeout (r : Runner) (a : String) (tmo : Option String) :
    Except TaskexError (Token × Runner) :=
  match tmo with
  | none => Except.ok (r.submit a none)
  | some s =>
      match parseTimeout s with
      | none => Except.error TaskexError.SubmissionError
      | some n => Except.ok (r.submit a (some n))

/-- Split a character list at every occurrence of the separator, the
semantics of Python's `str.split(sep)`. -/
def splitCharsOn (sep : Char) : List Char → List (List Char)
  | [] => [[]]
  | c :: cs =>
      let rest := splitCharsOn sep cs
      if c = sep then [] :: rest
      else
        match rest with
        | [] => [[c]]
        | g :: gs => (c :: g) :: gs

/-- Python's `s.split(sep)` for a one-character separator. -/
def pySplit (s : String) (sep : Char) : List String :=
  (splitCharsOn sep s.data).map (fun cs => String.mk cs)

/-- Split at the first `=`, the semantics of `arg.split("=", maxsplit=1)`. -/
def splitOnceEqChars : List Char → Option (List Char × List Char)
  | [] => none
  | c :: cs =>
      if c = '=' then some ([], cs)
      else
        match splitOnceEqChars cs with
        | none => none
        | some nv => some (c :: nv.1, nv.2)

/-- `arg.split("=", maxsplit=1)` followed by the two-name unpacking in the
`build` tool: an argument with no `=` makes the unpacking raise. -/
def splitOnceEq (s : String) : Option (String × String) :=
  match splitOnceEqChars s.data with
  | none => none
  | some nv => some (String.mk nv.1, String.mk nv.2)

/-- The `for arg in build_args.split(",")` loop of the `build` tool, with the
accumulator starting as `None` exactly as in the source: a malformed argument
raises `ValueError` at the unpacking, and a well-formed one raises `TypeError`
because `image_build_args` was never initialised to a dict. -/
def buildArgsFold (acc : Option (List (String × String))) :
    List String → Except TaskexError (Option (List (String × String)))
  | [] => Except.ok acc
  | arg :: rest =>
      match splitOnceEq arg with
      | none => Except.error TaskexError.PyValueError
      | some nv =>
          match acc with
          | none => Except.error TaskexError.PyTypeError
          | some d => buildArgsFold (some (d ++ [nv])) rest

/-- The `image_build_args` block of the `build` tool: `None` when
`build_args` is falsy, otherwise the loop above starting from `None`. -/
def parseBuildArgs (build_args : Option String) :
    Except TaskexError (Option (List (String × String))) :=
  match build_args with
  | none => Except.ok none
  | some s =>
      if s.data.isEmpty then Except.ok none
      else buildArgsFold none (pySplit s ',')

/-- The `build` tool of the Docker example server, restricted to the
submission-relevant steps: the build-arg block runs first (before any
`runner.run` call), and only if it does not raise is the image-build task
submitted with the caller's timeout string. -/
def build (r : Runner) (build_args tmo : Option String) :
    Except TaskexError (Token × Runner) :=
  match parseBuildArgs build_args with
  | Except.error e => Except.error e
  | Except.ok _ => submitWithTimeout r "build_image" tmo

/-- Modelled from the spec: the operations a whole-lifetime trace of the
runner is made of — submissions, event deliveries to a task, cancel calls,
and explicit evictions. -/
inductive RunnerOp
  | submitOp (a : String)
  | deliver (t : Token) (e : TaskEvent)
  | cancelOp (t : Token)
  | evictOp (t : Token)

/-- One trace step: its successor state and the token it issued, if any. -/
def stepOp (r : Runner) : RunnerOp → Runner × Option Token
  | RunnerOp.submitOp a =>
      let s := r.submit a none
      (s.2, some s.1)
  | RunnerOp.deliver t e =>
      ({ r with table := updateRecord r.table t (applyEvent e) }, none)
  | RunnerOp.cancelOp t =>
      match r.cancel t with
      | Except.ok r' => (r', none)
      | Except.error _ => (r, none)
  | RunnerOp.evictOp t => (r.evict t, none)

/-- Run a whole trace, collecting every token issued along it. -/
def runOps : Runner → List RunnerOp → Runner × List Token
  | r, [] => (r, [])
  | r, op :: ops =>
      let s := stepOp r op
      let rest := runOps s.1 ops
      (rest.1, s.2.toList ++ rest.2)

/-! ### Helper lemmas -/

theorem applyEvent_token (e : TaskEvent) (rec : TaskRun) :
    (applyEvent e rec).token = rec.token := by
  cases e <;> simp only [applyEvent] <;> split <;> rfl

theorem applyEvent_terminal (e : TaskEvent) (rec : TaskRun)
    (h : isTerminal rec.status = true) : applyEvent e rec = rec := by
  cases e <;>
    cases hs : rec.status <;>
    simp [applyEvent, hs, isTerminal] <;>
    simp [hs, isTerminal] at h

theorem cancelRequest_idem (rec : TaskRun) :
    applyEvent TaskEvent.cancelRequest (applyEvent TaskEvent.cancelRequest rec) =
      applyEvent TaskEvent.cancelRequest rec := by
  cases hs : rec.status <;> simp [applyEvent, hs]

/-! ### C2 -/

/-- Claim C2: the three outcome states Completed, Failed and Cancelled are
terminal — no event of the system (executor start or completion, cancel
request, cancel acknowledgement, timeout expiry) changes a record whose
status is one of them. -/
theorem terminal_states_frozen (rec : TaskRun) (e : TaskEvent)
    (h : isTerminal rec.status = true) :
    applyEvent e rec = rec ∧ (applyEvent e rec).status = rec.status := by
  refine ⟨applyEvent_terminal e rec h, ?_⟩
  rw [applyEvent_terminal e rec h]

/-- Witness for C2 at a concrete Completed record hit by a cancel request. -/
theorem terminal_states_frozen_witness :
    applyEvent TaskEvent.cancelRequest
        { token := ⟨"greet", 0⟩, status := Status.Completed, result := "hello\n",
          error := none, cancel_requested := false, timeout := none } =
      { token := ⟨"greet", 0⟩, status := Status.Completed, result := "hello\n",
        error := none, cancel_requested := false, timeout := none } :=
  (terminal_states_frozen
    { token := ⟨"greet", 0⟩, status := Status.Completed, result := "hello\n",
      error := none, cancel_requested := false, timeout := none }
    TaskEvent.cancelRequest (by decide)).1

/-! ### C7 -/

/-- Claim C7: a task with a configured timeout that is not yet terminal when
the timeout expires ends Cancelled (never Completed or Failed) with the
timeout-specific error text, and this outcome agrees with an explicit cancel
on the resulting status — the two differ only in the error text (the explicit
cancel path leaves the error field untouched). -/
theorem timeout_cancels (rec : TaskRun) (h : isTerminal rec.status = false) :
    (applyEvent TaskEvent.timeoutExpire rec).status = Status.Cancelled ∧
    (applyEvent TaskEvent.timeoutExpire rec).error = some timeoutErrorText ∧
    (applyEvent TaskEvent.timeoutExpire rec).status ≠ Status.Completed ∧
    (applyEvent TaskEvent.timeoutExpire rec).status ≠ Status.Failed ∧
    (explicitCancel rec).status = Status.Cancelled ∧
    (explicitCancel rec).error = rec.error := by
  cases hs : rec.status <;>
    simp_all [applyEvent, isTerminal, explicitCancel]

/-- Witness for C7 at a concrete Running record with a 0-second timeout. -/
theorem timeout_cancels_witness :
    (applyEvent TaskEvent.timeoutExpire
        { token := ⟨"sleeper", 3⟩, status := Status.Running, result := "",
          error := none, cancel_requested := false, timeout := some 0 }).status =
      Status.Cancelled ∧
    (applyEvent TaskEvent.timeoutExpire
        { token := ⟨"sleeper", 3⟩, status := Status.Running, result := "",
          error := none, cancel_requested := false, timeout := some 0 }).error =
      some timeoutErrorText :=
  ⟨(timeout_cancels
      { token := ⟨"sleeper", 3⟩, status := Status.Running, result := "",
        error := none, cancel_requested := false, timeout := some 0 }
      (by decide)).1,
   (timeout_cancels
      { token := ⟨"sleeper", 3⟩, status := Status.Running, result := "",
        error := none, cancel_requested := false, timeout := some 0 }
      (by decide)).2.1⟩

/-! ### C8 -/

/-- Claim C8: a process task whose external process exits with code zero ends
Completed with the captured stdout as result; a non-zero exit code ends Failed
with the captured stderr (or an exit diagnostic when stderr is empty) as
error; in particular the `echo hello` scenario ends Completed with result
`"hello\n"`. -/
theorem process_exit_mapping (rec : TaskRun) (exitCode : Nat) (out err : String)
    (hrun : rec.status = Status.Running) :
    (exitCode = 0 →
      (processOutcome rec exitCode out err).status = Status.Completed ∧
      (processOutcome rec exitCode out err).result = out) ∧
    (exitCode ≠ 0 →
      (processOutcome rec exitCode out err).status = Status.Failed ∧
      (processOutcome rec exitCode out err).error =
        some (if err.isEmpty then exitDiagnostic exitCode else err)) ∧
    (processOutcome rec echoHelloExitCode echoHelloStdout echoHelloStderr).status =
      Status.Completed ∧
    (processOutcome rec echoHelloExitCode echoHelloStdout echoHelloStderr).result =
      "hello\n" := by
  refine ⟨fun h0 => ?_, fun hn => ?_, ?_, ?_⟩ <;>
    simp_all [processOutcome, processEvent, applyEvent,
      echoHelloExitCode, echoHelloStdout, echoHelloStderr]

/-- Witness for C8: the `echo hello` scenario on a concrete Running record. -/
theorem process_exit_mapping_witness :
    (processOutcome
        { token := ⟨"greet", 0⟩, status := Status.Running, result := "",
          error := none, cancel_requested := false, timeout := none }
        0 "hello\n" "").status = Status.Completed ∧
    (processOutcome
        { token := ⟨"greet", 0⟩, status := Status.Running, result := "",
          error := none, cancel_requested := false, timeout := none }
        0 "hello\n" "").result = "hello\n" :=
  (process_exit_mapping
    { token := ⟨"greet", 0⟩, status := Status.Running, result := "",
      error := none, cancel_requested := false, timeout := none }
    0 "hello\n" "" rfl).1 rfl

/-! ### C5 -/

/-- Claim C5: on a finished record (complete in the sense of the output
contract) carrying a non-empty error, the plain-text output path returns the
error text, not the result; in particular a function task that raises ends
Failed and `get_command_output` returns the captured error text. -/
theorem error_wins_plain_text (rec rec0 : TaskRun) (msg : String)
    (hc : rec.complete = true) (he : errorNonEmpty rec = true)
    (hrun : rec0.status = Status.Running) (hmsg : ¬msg.isEmpty) :
    get_command_output rec false = rec.error.getD "" ∧
    (rec.error.getD "" ≠ rec.result → get_command_output rec false ≠ rec.result) ∧
    (applyEvent (TaskEvent.completeErr msg) rec0).status = Status.Failed ∧
    get_command_output (applyEvent (TaskEvent.completeErr msg) rec0) false = msg := by
  refine ⟨?_, ?_, ?_, ?_⟩ <;>
    simp_all [get_command_output, applyEvent, errorNonEmpty]

/-- Witness for C5 at a concrete Failed record holding both a result and a
non-empty error, and a concrete Running record whose task raises. -/
theorem error_wins_plain_text_witness :
    get_command_output
        { token := ⟨"job", 1⟩, status := Status.Failed, result := "partial",
          error := some "boom", cancel_requested := false, timeout := none }
        false = "boom" ∧
    get_command_output
        (applyEvent (TaskEvent.completeErr "oops")
          { token := ⟨"job", 2⟩, status := Status.Running, result := "",
            error := none, cancel_requested := false, timeout := none })
        false = "oops" := by
  refine ⟨?_, ?_⟩
  · have h := (error_wins_plain_text
      { token := ⟨"job", 1⟩, status := Status.Failed, result := "partial",
        error := some "boom", cancel_requested := false, timeout := none }
      { token := ⟨"job", 2⟩, status := Status.Running, result := "",
        error := none, cancel_requested := false, timeout := none }
      "oops" rfl rfl rfl (by decide)).1
    simpa using h
  · exact (error_wins_plain_text
      { token := ⟨"job", 1⟩, status := Status.Failed, result := "partial",
        error := some "boom", cancel_requested := false, timeout := none }
      { token := ⟨"job", 2⟩, status := Status.Running, result := "",
        error := none, cancel_requested := false, timeout := none }
      "oops" rfl rfl rfl (by decide)).2.2.2

/-! ### C6 -/

/-- A concrete record a timed-out task ends in: Cancelled with the timeout
error text — neither Completed nor Failed, yet carrying a non-empty error. -/
def cancelledTimedOut : TaskRun :=
  { token := ⟨"build_image", 0⟩, status := Status.Cancelled, result := "",
    error := some timeoutErrorText, cancel_requested := true, timeout := some 0 }

/-- Counterexample to C6 as stated: `cancelledTimedOut` is neither Completed
nor Failed, yet a plain-text output request returns its error text, not the
still-running sentinel — the error branch of `get_command_output` runs before
the sentinel branch. -/
theorem still_running_view_cex :
    cancelledTimedOut.status ≠ Status.Completed ∧
    cancelledTimedOut.status ≠ Status.Failed ∧
    get_command_output cancelledTimedOut false = timeoutErrorText ∧
    get_command_output cancelledTimedOut false ≠ "Command is still running." := by
  refine ⟨by decide, by decide, rfl, by decide⟩

/-- Claim C6 as amended: for every record whose status is neither Completed
nor Failed and whose error field is empty (the record of a queued or running
task), `get_command_output` returns the still-running sentinel for either
value of the `as_json` flag. A record that is neither Completed nor Failed
but carries a non-empty error (a cancelled-with-error task) instead gets the
error text back. -/
theorem still_running_view (rec : TaskRun) (as_json : Bool)
    (hc : rec.complete = false) (he : errorNonEmpty rec = false) :
    get_command_output rec as_json = "Command is still running." := by
  simp [get_command_output, hc, he]

/-- Witness for amended C6 at a concrete Running record. -/
theorem still_running_view_witness :
    get_command_output
        { token := ⟨"run_process", 0⟩, status := Status.Running, result := "",
          error := none, cancel_requested := false, timeout := none }
        false = "Command is still running." :=
  still_running_view
    { token := ⟨"run_process", 0⟩, status := Status.Running, result := "",
      error := none, cancel_requested := false, timeout := none }
    false rfl rfl

/-! ### C10 -/

/-- Claim C10: on a complete record the structured path (`as_json = true`)
returns the full JSON encoding of the record even when the error field is
non-empty; the error-takes-precedence rule fires only when the structured
flag is unset or the record is not complete. -/
theorem json_path_full_record (rec : TaskRun) (as_json : Bool) :
    (rec.complete = true → get_command_output rec true = rec.model_dump_json) ∧
    ((as_json = false ∨ rec.complete = false) → errorNonEmpty rec = true →
      get_command_output rec as_json = rec.error.getD "") := by
  constructor
  · intro hc
    simp [get_command_output, hc]
  · rintro (haj | hc) he
    · subst haj
      simp [get_command_output, he]
    · simp [get_command_output, hc, he]

/-- Witness for C10 at a concrete Failed record with non-empty error: the
structured path returns the JSON dump, the plain path returns the error. -/
theorem json_path_full_record_witness :
    get_command_output
        { token := ⟨"job", 4⟩, status := Status.Failed, result := "r",
          error := some "boom", cancel_requested := false, timeout := none }
        true =
      TaskRun.model_dump_json
        { token := ⟨"job", 4⟩, status := Status.Failed, result := "r",
          error := some "boom", cancel_requested := false, timeout := none } ∧
    get_command_output
        { token := ⟨"job", 4⟩, status := Status.Failed, result := "r",
          error := some "boom", cancel_requested := false, timeout := none }
        false = "boom" := by
  refine ⟨(json_path_full_record
      { token := ⟨"job", 4⟩, status := Status.Failed, result := "r",
        error := some "boom", cancel_requested := false, timeout := none }
      true).1 rfl, ?_⟩
  have h := (json_path_full_record
      { token := ⟨"job", 4⟩, status := Status.Failed, result := "r",
        error := some "boom", cancel_requested := false, timeout := none }
      false).2 (Or.inl rfl) rfl
  simpa using h

/-! ### C4 -/

theorem updateRecord_eq_self (t : Token) (f : TaskRun → TaskRun)
    (l : List TaskRun) (h : ∀ rec ∈ l, rec.token = t → f rec = rec) :
    updateRecord l t f = l := by
  induction l with
  | nil => rfl
  | cons x xs ih =>
    simp only [updateRecord, List.map_cons, List.map] at ih ⊢
    have hx : (if x.token = t then f x else x) = x := by
      split
      · exact h x (List.mem_cons_self x xs) (by assumption)
      · rfl
    rw [hx, ih fun rec hm ht => h rec (List.mem_cons_of_mem x hm) ht]

theorem updateRecord_idem (t : Token) (f : TaskRun → TaskRun)
    (hf : ∀ x, f (f x) = f x) (htok : ∀ x, (f x).token = x.token)
    (l : List TaskRun) :
    updateRecord (updateRecord l t f) t f = updateRecord l t f := by
  have hg : ((fun rec => if rec.token = t then f rec else rec) ∘
      (fun rec => if rec.token = t then f rec else rec)) =
      (fun rec => if rec.token = t then f rec else rec) := by
    funext x
    by_cases hx : x.token = t
    · simp [Function.comp, hx, htok x, hf x]
    · simp [Function.comp, hx]
  simp only [updateRecord, List.map_map, hg]

theorem findRecord_update_isSome (t : Token) (f : TaskRun → TaskRun)
    (htok : ∀ x, (f x).token = x.token) (l : List TaskRun) :
    (findRecord (updateRecord l t f) t).isSome = (findRecord l t).isSome := by
  induction l with
  | nil => rfl
  | cons x xs ih =>
    by_cases hx : x.token = t
    · simp [findRecord, updateRecord, List.find?_cons, hx, htok x]
    · simp only [findRecord, updateRecord, List.map_cons] at ih ⊢
      rw [List.find?_cons, List.find?_cons, if_neg hx]
      have hd : decide (x.token = t) = false := by simp [hx]
      simp only [hd]
      exact ih

/-- Claim C4: cancelling a task that already reached a terminal state is a
no-op and not an error — the runner state is returned unchanged; and a second
cancel call on any token never fails once a first cancel succeeded, leaving the
runner state untouched. -/
theorem cancel_terminal_noop (r r' : Runner) (t : Token)
    (hsome : (findRecord r.table t).isSome = true) :
    ((∀ rec ∈ r.table, rec.token = t → isTerminal rec.status = true) →
      r.cancel t = Except.ok r) ∧
    (r.cancel t = Except.ok r' → r'.cancel t = Except.ok r') := by
  constructor
  · intro hterm
    cases hf : findRecord r.table t with
    | none => rw [hf] at hsome; simp at hsome
    | some rec =>
      simp only [Runner.cancel, hf]
      rw [updateRecord_eq_self t _ r.table
        (fun x hm ht => applyEvent_terminal TaskEvent.cancelRequest x (hterm x hm ht))]
  · intro hok
    cases hf : findRecord r.table t with
    | none => simp [Runner.cancel, hf] at hok
    | some rec =>
      simp only [Runner.cancel, hf, Except.ok.injEq] at hok
      have htab : r'.table =
          updateRecord r.table t (applyEvent TaskEvent.cancelRequest) := by
        rw [← hok]
      have hsome' : (findRecord r'.table t).isSome = true := by
        rw [htab, findRecord_update_isSome t _
          (applyEvent_token TaskEvent.cancelRequest), hf]
        rfl
      cases hf' : findRecord r'.table t with
      | none => rw [hf'] at hsome'; simp at hsome'
      | some rec' =>
        simp only [Runner.cancel, hf']
        rw [htab, updateRecord_idem t _ cancelRequest_idem
          (applyEvent_token TaskEvent.cancelRequest)]
        rw [← htab]

/-- Witness for C4: a runner holding one Completed record; cancel is a no-op
there, and cancelling twice succeeds with the state unchanged. -/
theorem cancel_terminal_noop_witness :
    Runner.cancel
        ⟨1, [{ token := ⟨"job", 0⟩, status := Status.Completed, result := "done",
               error := none, cancel_requested := false, timeout := none }]⟩
        ⟨"job", 0⟩ =
      Except.ok
        ⟨1, [{ token := ⟨"job", 0⟩, status := Status.Completed, result := "done",
               error := none, cancel_requested := false, timeout := none }]⟩ ∧
    Runner.cancel
        ⟨1, [{ token := ⟨"job", 0⟩, status := Status.Completed, result := "done",
               error := none, cancel_requested := false, timeout := none }]⟩
        ⟨"job", 0⟩ =
      Except.ok
        ⟨1, [{ token := ⟨"job", 0⟩, status := Status.Completed, result := "done",
               error := none, cancel_requested := false, timeout := none }]⟩ := by
  have h1 := (cancel_terminal_noop
    ⟨1, [{ token := ⟨"job", 0⟩, status := Status.Completed, result := "done",
           error := none, cancel_requested := false, timeout := none }]⟩
    ⟨1, [{ token := ⟨"job", 0⟩, status := Status.Completed, result := "done",
           error := none, cancel_requested := false, timeout := none }]⟩
    ⟨"job", 0⟩ (by decide)).1 (by decide)
  have h2 := (cancel_terminal_noop
    ⟨1, [{ token := ⟨"job", 0⟩, status := Status.Completed, result := "done",
           error := none, cancel_requested := false, timeout := none }]⟩
    ⟨1, [{ token := ⟨"job", 0⟩, status := Status.Completed, result := "done",
           error := none, cancel_requested := false, timeout := none }]⟩
    ⟨"job", 0⟩ (by decide)).2 h1
  exact ⟨h1, h2⟩

/-! ### C9 -/

theorem buildArgsFold_none_err (arg : String) (rest : List String) :
    ∃ e, buildArgsFold none (arg :: rest) = Except.error e := by
  cases h : splitOnceEq arg with
  | none => exact ⟨TaskexError.PyValueError, by simp [buildArgsFold, h]⟩
  | some nv => exact ⟨TaskexError.PyTypeError, by simp [buildArgsFold, h]⟩

/-- Claim C9: a submission with an unparsable timeout string fails with
`SubmissionError` and no task record is created (the error branch carries no
runner state), and the malformed timeout is never silently replaced by a
default; a `build` call with a malformed build-arg list raises before any task
is submitted; the parser does accept the documented shorthand units. -/
theorem malformed_submission_rejected (r : Runner) (a ts ba : String)
    (tmo : Option String)
    (hts : parseTimeout ts = none)
    (hba : ba.data.isEmpty = false)
    (hmal : ∃ arg ∈ pySplit ba ',', splitOnceEq arg = none) :
    submitWithTimeout r a (some ts) = Except.error TaskexError.SubmissionError ∧
    (∀ n, parseTimeout ts ≠ some n) ∧
    (∃ e, build r (some ba) tmo = Except.error e) ∧
    parseTimeout "30s" = some 30 ∧ parseTimeout "2m" = some 120 ∧
    parseTimeout "1h" = some 3600 := by
  refine ⟨by simp [submitWithTimeout, hts], ?_, ?_, by decide, by decide, by decide⟩
  · intro n
    rw [hts]
    simp
  · obtain ⟨arg, hm, _⟩ := hmal
    cases hl : pySplit ba ',' with
    | nil => rw [hl] at hm; simp at hm
    | cons x xs =>
      obtain ⟨e, he⟩ := buildArgsFold_none_err x xs
      exact ⟨e, by simp [build, parseBuildArgs, hba, hl, he]⟩

/-- Witness for C9 at the malformed timeout string `"abc"` and the malformed
build-arg list `"FOO"` (no `=`). -/
theorem malformed_submission_rejected_witness :
    submitWithTimeout initRunner "build_image" (some "abc") =
      Except.error TaskexError.SubmissionError ∧
    (∃ e, build initRunner (some "FOO") none = Except.error e) := by
  have h := malformed_submission_rejected initRunner "build_image" "abc" "FOO"
    none (by decide) (by decide) ⟨"FOO", by decide, by decide⟩
  exact ⟨h.1, h.2.2.1⟩

/-! ### C1 -/

theorem stepOp_issued (r : Runner) (op : RunnerOp) :
    ((stepOp r op).2 = none ∧ (stepOp r op).1.counter = r.counter) ∨
    (∃ a, (stepOp r op).2 = some ⟨a, r.counter⟩ ∧
      (stepOp r op).1.counter = r.counter + 1) := by
  cases op with
  | submitOp a => exact Or.inr ⟨a, rfl, rfl⟩
  | deliver t e => exact Or.inl ⟨rfl, rfl⟩
  | cancelOp t =>
    refine Or.inl ⟨?_, ?_⟩ <;>
      · simp only [stepOp, Runner.cancel]
        cases findRecord r.table t <;> rfl
  | evictOp t => exact Or.inl ⟨rfl, rfl⟩

theorem runOps_tokens_lb (ops : List RunnerOp) :
    ∀ r : Runner, ∀ t ∈ (runOps r ops).2, r.counter ≤ t.run_id := by
  induction ops with
  | nil => intro r t ht; simp [runOps] at ht
  | cons op ops ih =>
    intro r t ht
    simp only [runOps, List.mem_append] at ht
    rcases stepOp_issued r op with ⟨hnone, hc⟩ | ⟨a, hsome, hc⟩
    · rcases ht with ht | ht
      · rw [hnone] at ht; simp at ht
      · have := ih (stepOp r op).1 t ht
        omega
    · rcases ht with ht | ht
      · rw [hsome] at ht
        simp only [Option.toList_some, List.mem_singleton] at ht
        subst ht
        exact le_refl _
      · have := ih (stepOp r op).1 t ht
        omega

theorem runOps_tokens_sorted (ops : List RunnerOp) :
    ∀ r : Runner, ((runOps r ops).2).Pairwise (fun a b => a.run_id < b.run_id) := by
  induction ops with
  | nil => intro r; simp [runOps]
  | cons op ops ih =>
    intro r
    rcases stepOp_issued r op with ⟨hnone, hc⟩ | ⟨a, hsome, hc⟩
    · simp only [runOps, hnone, Option.toList_none, List.nil_append]
      exact ih _
    · simp only [runOps, hsome, Option.toList_some, List.singleton_append,
        List.pairwise_cons]
      refine ⟨?_, ih _⟩
      intro b hb
      have := runOps_tokens_lb ops (stepOp r op).1 b hb
      omega

/-- Claim C1: over any whole-lifetime trace of the runner (submissions,
executor events, cancels, in any order), the tokens returned by submit are
pairwise distinct — a token, once issued, is never issued again for a later
task, even after the original task completes. -/
theorem submitted_tokens_distinct (ops : List RunnerOp) :
    ((runOps initRunner ops).2).Pairwise (fun a b => a ≠ b) := by
  refine (runOps_tokens_sorted ops initRunner).imp ?_
  intro a b hlt heq
  rw [heq] at hlt
  exact lt_irrefl _ hlt

/-! ### C3 -/

theorem mem_updateRecord_token (t : Token) (f : TaskRun → TaskRun)
    (htok : ∀ x, (f x).token = x.token) (l : List TaskRun) :
    ∀ rec ∈ updateRecord l t f, rec.token ∈ l.map TaskRun.token := by
  intro rec hm
  simp only [updateRecord, List.mem_map] at hm
  obtain ⟨x, hx, hgx⟩ := hm
  subst hgx
  simp only [List.mem_map]
  refine ⟨x, hx, ?_⟩
  by_cases hxt : x.token = t
  · simp [hxt, htok x]
  · simp [hxt]

theorem stepOp_table_tokens (r : Runner) (op : RunnerOp) :
    ∀ rec ∈ (stepOp r op).1.table,
      rec.token ∈ r.table.map TaskRun.token ∨ (stepOp r op).2 = some rec.token := by
  intro rec hm
  cases op with
  | submitOp a =>
    simp only [stepOp, Runner.submit, List.mem_append, List.mem_singleton] at hm
    rcases hm with hm | hm
    · exact Or.inl (List.mem_map_of_mem _ hm)
    · subst hm; exact Or.inr rfl
  | deliver t e =>
    simp only [stepOp] at hm
    exact Or.inl (mem_updateRecord_token t _ (applyEvent_token e) r.table rec hm)
  | cancelOp t =>
    simp only [stepOp, Runner.cancel] at hm
    cases hf : findRecord r.table t with
    | none =>
      rw [hf] at hm
      exact Or.inl (List.mem_map_of_mem _ hm)
    | some x =>
      rw [hf] at hm
      exact Or.inl (mem_updateRecord_token t _
        (applyEvent_token TaskEvent.cancelRequest) r.table rec hm)
  | evictOp t =>
    simp only [stepOp, Runner.evict, List.mem_filter] at hm
    exact Or.inl (List.mem_map_of_mem _ hm.1)

theorem runOps_table_tokens (ops : List RunnerOp) :
    ∀ r : Runner, ∀ rec ∈ (runOps r ops).1.table,
      rec.token ∈ r.table.map TaskRun.token ∨ rec.token ∈ (runOps r ops).2 := by
  induction ops with
  | nil =>
    intro r rec hm
    simp only [runOps] at hm
    exact Or.inl (List.mem_map_of_mem _ hm)
  | cons op ops ih =>
    intro r rec hm
    simp only [runOps] at hm ⊢
    rcases ih (stepOp r op).1 rec hm with hin | hiss
    · simp only [List.mem_map] at hin
      obtain ⟨rec', hmem', htok'⟩ := hin
      rcases stepOp_table_tokens r op rec' hmem' with hin' | hiss'
      · rw [← htok']
        exact Or.inl hin'
      · refine Or.inr ?_
        rw [List.mem_append, hiss']
        exact Or.inl (by simp [htok'])
    · refine Or.inr ?_
      rw [List.mem_append]
      exact Or.inr hiss

theorem findRecord_eq_none (l : List TaskRun) (t : Token)
    (h : ∀ rec ∈ l, rec.token ≠ t) : findRecord l t = none := by
  cases hf : findRecord l t with
  | none => rfl
  | some rec =>
    have hmem := List.mem_of_find?_eq_some hf
    have htok : rec.token = t := by simpa using List.find?_some hf
    exact absurd htok (h rec hmem)

theorem runOps_append (ops₁ ops₂ : List RunnerOp) :
    ∀ r : Runner, runOps r (ops₁ ++ ops₂) =
      ((runOps (runOps r ops₁).1 ops₂).1,
        (runOps r ops₁).2 ++ (runOps (runOps r ops₁).1 ops₂).2) := by
  induction ops₁ with
  | nil => intro r; simp [runOps]
  | cons op ops ih =>
    intro r
    simp only [List.cons_append, runOps, List.append_eq, ih (stepOp r op).1,
      List.append_assoc]

theorem stepOp_counter_mono (r : Runner) (op : RunnerOp) :
    r.counter ≤ (stepOp r op).1.counter := by
  rcases stepOp_issued r op with ⟨_, hc⟩ | ⟨a, _, hc⟩ <;> omega

theorem runOps_counter_mono (ops : List RunnerOp) :
    ∀ r : Runner, r.counter ≤ (runOps r ops).1.counter := by
  induction ops with
  | nil => intro r; simp [runOps]
  | cons op ops ih =>
    intro r
    simp only [runOps]
    exact le_trans (stepOp_counter_mono r op) (ih (stepOp r op).1)

theorem runOps_issued_lt (ops : List RunnerOp) :
    ∀ r : Runner, ∀ t ∈ (runOps r ops).2, t.run_id < (runOps r ops).1.counter := by
  induction ops with
  | nil => intro r t ht; simp [runOps] at ht
  | cons op ops ih =>
    intro r t ht
    simp only [runOps, List.mem_append] at ht ⊢
    rcases stepOp_issued r op with ⟨hnone, hc⟩ | ⟨a, hsome, hc⟩
    · rcases ht with ht | ht
      · rw [hnone] at ht; simp at ht
      · exact ih _ t ht
    · rcases ht with ht | ht
      · rw [hsome] at ht
        simp only [Option.toList_some, List.mem_singleton] at ht
        subst ht
        have := runOps_counter_mono ops (stepOp r op).1
        simp only []
        omega
      · exact ih _ t ht

theorem stepOp_absent (r : Runner) (op : RunnerOp) (t : Token)
    (habs : ∀ rec ∈ r.table, rec.token ≠ t) (hlt : t.run_id < r.counter) :
    (∀ rec ∈ (stepOp r op).1.table, rec.token ≠ t) ∧
      t.run_id < (stepOp r op).1.counter := by
  refine ⟨?_, lt_of_lt_of_le hlt (stepOp_counter_mono r op)⟩
  intro rec hm
  rcases stepOp_table_tokens r op rec hm with hin | hiss
  · simp only [List.mem_map] at hin
    obtain ⟨x, hx, hxx⟩ := hin
    rw [← hxx]
    exact habs x hx
  · rcases stepOp_issued r op with ⟨hnone, _⟩ | ⟨a, hsome, _⟩
    · rw [hnone] at hiss; exact absurd hiss (by simp)
    · rw [hsome] at hiss
      have : rec.token = (⟨a, r.counter⟩ : Token) := by
        simpa using hiss.symm
      rw [this]
      intro hEq
      have : r.counter = t.run_id := congrArg Token.run_id hEq
      omega

theorem runOps_absent (ops : List RunnerOp) :
    ∀ (r : Runner) (t : Token), (∀ rec ∈ r.table, rec.token ≠ t) →
      t.run_id < r.counter →
      ∀ rec ∈ (runOps r ops).1.table, rec.token ≠ t := by
  induction ops with
  | nil =>
    intro r t habs _ rec hm
    exact habs rec (by simpa [runOps] using hm)
  | cons op ops ih =>
    intro r t habs hlt rec hm
    simp only [runOps] at hm
    obtain ⟨h1, h2⟩ := stepOp_absent r op t habs hlt
    exact ih _ t h1 h2 rec hm

theorem evict_absent (r : Runner) (t : Token) :
    ∀ rec ∈ (Runner.evict r t).table, rec.token ≠ t := by
  intro rec hm
  simp only [Runner.evict, List.mem_filter, decide_not, Bool.not_eq_eq_eq_not,
    Bool.not_true, decide_eq_false_iff_not] at hm
  exact hm.2

/-- Counterexample to C3 as stated: at the concrete never-issued token
`test:1234567890` on a fresh runner, the status lookup does fail with
`UnknownToken`, but the status dispatch endpoint `get_command_status` does not
convert that failure into a user-visible message — it lets the exception
propagate (there is no try/except around `runner.get_task_update` in
`get_command_status`, unlike `cancel_command`). -/
theorem status_dispatch_propagates_cex :
    get_command_status initRunner ⟨"test", 1234567890⟩ =
      Except.error TaskexError.UnknownToken ∧
    exceptIsOk (get_command_status initRunner ⟨"test", 1234567890⟩) = false := by
  exact ⟨rfl, rfl⟩

/-- Claim C3 as amended: for every token that was never returned by submit
over the runner's whole lifetime, and likewise for every token that was
issued and later evicted (whatever operations follow the eviction), the
status lookup fails with `UnknownToken` rather than returning any status
value; `get_command_status` propagates that failure unconverted, while the
cancel dispatch endpoint `cancel_command` is the one that converts the
failure into a user-visible message. -/
theorem unknown_token_status (ops : List RunnerOp) (t : Token)
    (h : t ∉ (runOps initRunner ops).2 ∨
      ∃ pre post, ops = pre ++ RunnerOp.evictOp t :: post ∧
        t ∈ (runOps initRunner pre).2) :
    get_task_update (runOps initRunner ops).1 t =
      Except.error TaskexError.UnknownToken ∧
    get_command_status (runOps initRunner ops).1 t =
      Except.error TaskexError.UnknownToken ∧
    (cancel_command (runOps initRunner ops).1 t).1 =
      cancelFailText t TaskexError.UnknownToken := by
  have hfind : findRecord (runOps initRunner ops).1.table t = none := by
    rcases h with h | ⟨pre, post, hops, hiss⟩
    · refine findRecord_eq_none _ t ?_
      intro rec hmem hEq
      rcases runOps_table_tokens ops initRunner rec hmem with hin | hiss
      · simp [initRunner] at hin
      · rw [hEq] at hiss
        exact h hiss
    · subst hops
      rw [runOps_append pre (RunnerOp.evictOp t :: post) initRunner]
      simp only [runOps, stepOp]
      refine findRecord_eq_none _ t ?_
      refine runOps_absent post ((runOps initRunner pre).1.evict t) t
        (evict_absent (runOps initRunner pre).1 t) ?_
      exact runOps_issued_lt pre initRunner t hiss
  exact ⟨by simp [get_task_update, hfind],
    by simp [get_command_status, get_task_update, hfind],
    by simp [cancel_command, Runner.cancel, hfind]⟩

/-- Witness for amended C3, both cases: after the trace consisting of one
submission, the never-issued token `other:7` is unknown; and after submitting
`greet` (issuing `greet:0`), evicting `greet:0` and then submitting again,
the evicted token `greet:0` is unknown — while `cancel_command` renders the
failure message in each case. -/
theorem unknown_token_status_witness :
    (get_task_update (runOps initRunner [RunnerOp.submitOp "greet"]).1 ⟨"other", 7⟩ =
      Except.error TaskexError.UnknownToken ∧
    get_command_status (runOps initRunner [RunnerOp.submitOp "greet"]).1 ⟨"other", 7⟩ =
      Except.error TaskexError.UnknownToken ∧
    (cancel_command (runOps initRunner [RunnerOp.submitOp "greet"]).1 ⟨"other", 7⟩).1 =
      cancelFailText ⟨"other", 7⟩ TaskexError.UnknownToken) ∧
    (get_task_update
        (runOps initRunner [RunnerOp.submitOp "greet",
          RunnerOp.evictOp ⟨"greet", 0⟩, RunnerOp.submitOp "greet"]).1
        ⟨"greet", 0⟩ =
      Except.error TaskexError.UnknownToken ∧
    get_command_status
        (runOps initRunner [RunnerOp.submitOp "greet",
          RunnerOp.evictOp ⟨"greet", 0⟩, RunnerOp.submitOp "greet"]).1
        ⟨"greet", 0⟩ =
      Except.error TaskexError.UnknownToken ∧
    (cancel_command
        (runOps initRunner [RunnerOp.submitOp "greet",
          RunnerOp.evictOp ⟨"greet", 0⟩, RunnerOp.submitOp "greet"]).1
        ⟨"greet", 0⟩).1 =
      cancelFailText ⟨"greet", 0⟩ TaskexError.UnknownToken) :=
  ⟨unknown_token_status [RunnerOp.submitOp "greet"] ⟨"other", 7⟩
      (Or.inl (by decide)),
   unknown_token_status
      [RunnerOp.submitOp "greet", RunnerOp.evictOp ⟨"greet", 0⟩,
        RunnerOp.submitOp "greet"] ⟨"greet", 0⟩
      (Or.inr ⟨[RunnerOp.submitOp "greet"], [RunnerOp.submitOp "greet"],
        rfl, by decide⟩)⟩
